import Mathlib

/-!
# Consent agent: shallow embedding and verification

This file embeds `basic_agent/consent_agent/consent.py` (class `ConsentAgent`)
in Lean 4 and proves properties of the embedded code.

Modelling decisions:
* Firestore documents are association lists `List (String × Value)`; Python
  dict literals built with `**`-spread give later entries precedence, so the
  lookup `aget` is last-entry-wins.
* `datetime` values are modelled as integers (`Value.time : Int`); the two
  `datetime.utcnow()` calls inside one method are modelled as a single `now`
  parameter passed to the method.
* The Firestore client and the network are modelled by flags on the agent
  state: `storeFails` makes the consent-collection access raise
  (`GoogleAPICallError`), `auditSinkFails` makes the audit write raise.
* `logging.error` calls append to `errorLog`; audit writes append to
  `auditLog`.
* Python truthiness of the heterogeneous document values is `truthy`;
  comparing a truthy non-datetime `expiry_date` against `datetime.utcnow()`
  raises `TypeError` in Python, which no handler in `verify_consent`
  catches, so `verify_consent` returns `Except String (Bool × AgentState)`
  with that path as `Except.error`.  `register_consent` catches every
  exception, so it is total.
-/

/-- A Firestore document value: Python `bool`, `datetime`, `str` or `None`. -/
inductive Value where
  | bool : Bool → Value
  | time : Int → Value
  | str : String → Value
  | none : Value
deriving DecidableEq, Repr

/-- Python truthiness of a document value (`datetime` objects are always
truthy, `None` is falsy, a string is truthy iff nonempty). -/
def truthy : Value → Bool
  | Value.bool b => b
  | Value.time _ => true
  | Value.str s => !(s == "")
  | Value.none => false

/-- Last-entry-wins lookup in an association list: the semantics of key
lookup in a Python dict built by listing entries and `**`-spreads in order,
where a later binding of a key overrides an earlier one. -/
def aget {α : Type} : List (String × α) → String → Option α
  | [], _ => Option.none
  | (k, v) :: rest, key =>
    match aget rest key with
    | Option.some w => Option.some w
    | Option.none => if k = key then Option.some v else Option.none

/-- Key membership in an association list (Python `key in dict`). -/
def hasKey {α : Type} (l : List (String × α)) (key : String) : Bool :=
  l.any (fun p => p.1 == key)

/-- One document of the audit collection, as written by `_log_audit`. -/
structure AuditEntry where
  user_id : String
  timestamp : Int
  action : String
  success : Bool
  service : String
deriving DecidableEq, Repr

/-- The state of a `ConsentAgent` together with its environment: its
configuration (from env vars), the consent collection, the audit
collection, the operational log, and the fault flags of the two
Firestore collections. -/
structure AgentState where
  /-- `REQUIRED_CONSENTS` split on commas. -/
  required_consents : List String
  /-- `DEFAULT_CONSENT_EXPIRY_DAYS` as a duration. -/
  default_expiry : Int
  /-- The consent collection: one document per `user_id`. -/
  store : List (String × List (String × Value))
  /-- The audit collection, in write order. -/
  auditLog : List AuditEntry
  /-- Lines written through `logging.error`. -/
  errorLog : List String
  /-- When true, consent-collection access raises `GoogleAPICallError`. -/
  storeFails : Bool
  /-- When true, the audit-collection write raises. -/
  auditSinkFails : Bool
deriving DecidableEq, Repr

/-- `ConsentAgent._log_audit`: attempt to append one audit document; its
own `try/except` turns a write failure into a `logging.error` line, so it
never raises to its caller. -/
def log_audit (s : AgentState) (now : Int) (uid action : String) (success : Bool) :
    AgentState :=
  if s.auditSinkFails then
    { s with errorLog := s.errorLog ++ ["Audit logging failed"] }
  else
    { s with auditLog := s.auditLog ++
        [{ user_id := uid, timestamp := now, action := action,
           success := success, service := "consent_agent" }] }

/-- `consent_data.get(key, False)` followed by truthiness, as in the
global-flag test of `verify_consent`. -/
def truthyGet (doc : List (String × Value)) (key : String) : Bool :=
  match aget doc key with
  | Option.some v => truthy v
  | Option.none => false

/-- `ConsentAgent.verify_consent`.  Returns `Except.error` exactly where
Python would raise an exception that the method does not catch (a truthy
non-datetime `expiry_date` compared with `datetime.utcnow()`); every other
path, including the caught `GoogleAPICallError`, returns `Except.ok` with
the boolean result and the updated state. -/
def verify_consent (s : AgentState) (now : Int) (user_id data_type : String) :
    Except String (Bool × AgentState) :=
  if s.storeFails then
    Except.ok (false,
      { s with errorLog := s.errorLog ++ ["Consent verification failed"] })
  else
    match aget s.store user_id with
    | Option.none =>
      Except.ok (false, log_audit s now user_id "No consent document found" false)
    | Option.some doc =>
      if truthyGet doc "data_processing" = false then
        Except.ok (false,
          log_audit s now user_id "Global data processing consent missing" false)
      else if hasKey doc (data_type ++ "_consent")
              && !(truthyGet doc (data_type ++ "_consent")) then
        Except.ok (false,
          log_audit s now user_id ("Specific consent denied for " ++ data_type) false)
      else
        match aget doc "expiry_date" with
        | Option.some (Value.time t) =>
          if t < now then
            Except.ok (false, log_audit s now user_id "Consent expired" false)
          else
            Except.ok (true,
              log_audit s now user_id ("Valid consent for " ++ data_type) true)
        | Option.some v =>
          if truthy v then
            Except.error "TypeError: expiry_date is not comparable with datetime"
          else
            Except.ok (true,
              log_audit s now user_id ("Valid consent for " ++ data_type) true)
        | Option.none =>
          Except.ok (true,
            log_audit s now user_id ("Valid consent for " ++ data_type) true)

/-- The `consent_data` dict literal of `register_consent`: the computed
fields first, then the `**consents` spread (so, with the last-entry-wins
lookup `aget`, caller-supplied keys override the computed fields). -/
def consent_doc (s : AgentState) (now : Int) (user_id : String)
    (consents : List (String × Value)) : List (String × Value) :=
  [("user_id", Value.str user_id),
   ("timestamp", Value.time now),
   ("expiry_date", Value.time (now + s.default_expiry))] ++ consents

/-- `ConsentAgent.register_consent`.  Builds the consent document (computed
fields first, then the `**consents` spread, so caller keys override), then
validates the required-consents list (raising `ValueError` on the first
missing one), then writes the document; the surrounding `except Exception`
turns any failure into a `logging.error` line plus a failure audit entry
and a `False` return, so the method is total. -/
def register_consent (s : AgentState) (now : Int) (user_id : String)
    (consents : List (String × Value)) : Bool × AgentState :=
  let consent_data := consent_doc s now user_id consents
  match s.required_consents.find? (fun c => !(hasKey consents c)) with
  | Option.some c =>
    let msg := "Consent registration failed: Missing required consent: " ++ c
    let s1 := { s with errorLog := s.errorLog ++ [msg] }
    (false, log_audit s1 now user_id msg false)
  | Option.none =>
    if s.storeFails then
      let msg := "Consent registration failed: store error"
      let s1 := { s with errorLog := s.errorLog ++ [msg] }
      (false, log_audit s1 now user_id msg false)
    else
      let s1 := { s with store := s.store ++ [(user_id, consent_data)] }
      (true, log_audit s1 now user_id "New consent registered" true)

/-- A request issued by `handle_data_violation` to a downstream service. -/
inductive Request where
  /-- POST `/block-processing` to the Processing Controller. -/
  | blockProcessing : String → Request
  /-- POST `/redact-data` to the Redaction Service. -/
  | redactData : String → String → Request
deriving DecidableEq, Repr

/-- The literal list `['email', 'phone_number']` of redactable data types in
`handle_data_violation`. -/
def redactable_data_types : List String := ["email", "phone_number"]

/-- `ConsentAgent.handle_data_violation`: the list of downstream requests
issued, in order. -/
def handle_data_violation (user_id data_type : String) : List Request :=
  [Request.blockProcessing user_id] ++
    (if data_type ∈ redactable_data_types then
      [Request.redactData user_id data_type]
    else [])

/-- The expired test of `verify_consent`: the record holds an `expiry_date`
that is a datetime strictly earlier than `now`. -/
def isExpired (doc : List (String × Value)) (now : Int) : Bool :=
  match aget doc "expiry_date" with
  | Option.some (Value.time t) => t < now
  | _ => false

/-- The `expiry_date` field, when present and truthy, is a datetime — the
typing assumption under which the expiry comparison in `verify_consent`
cannot raise `TypeError`. -/
def expiryWellTyped (doc : List (String × Value)) : Bool :=
  match aget doc "expiry_date" with
  | Option.some (Value.time _) => true
  | Option.some v => !(truthy v)
  | Option.none => true

instance {e a : Type} [DecidableEq e] [DecidableEq a] : DecidableEq (Except e a) := fun x y =>
  match x, y with
  | Except.ok u, Except.ok v =>
    if h : u = v then Decidable.isTrue (by rw [h])
    else Decidable.isFalse (fun hc => h (by cases hc; rfl))
  | Except.error u, Except.error v =>
    if h : u = v then Decidable.isTrue (by rw [h])
    else Decidable.isFalse (fun hc => h (by cases hc; rfl))
  | Except.ok _, Except.error _ => Decidable.isFalse (fun hc => by cases hc)
  | Except.error _, Except.ok _ => Decidable.isFalse (fun hc => by cases hc)

/-! ## Helper lemmas -/

theorem log_audit_store (s : AgentState) (now : Int) (uid action : String) (ok : Bool) :
    (log_audit s now uid action ok).store = s.store := by
  unfold log_audit; split <;> rfl

theorem log_audit_storeFails (s : AgentState) (now : Int) (uid action : String) (ok : Bool) :
    (log_audit s now uid action ok).storeFails = s.storeFails := by
  unfold log_audit; split <;> rfl

theorem log_audit_required (s : AgentState) (now : Int) (uid action : String) (ok : Bool) :
    (log_audit s now uid action ok).required_consents = s.required_consents := by
  unfold log_audit; split <;> rfl

theorem log_audit_default (s : AgentState) (now : Int) (uid action : String) (ok : Bool) :
    (log_audit s now uid action ok).default_expiry = s.default_expiry := by
  unfold log_audit; split <;> rfl

theorem log_audit_sinkFlag (s : AgentState) (now : Int) (uid action : String) (ok : Bool) :
    (log_audit s now uid action ok).auditSinkFails = s.auditSinkFails := by
  unfold log_audit; split <;> rfl

theorem log_audit_auditLog_ok (s : AgentState) (now : Int) (uid action : String) (ok : Bool)
    (h : s.auditSinkFails = false) :
    (log_audit s now uid action ok).auditLog =
      s.auditLog ++ [{ user_id := uid, timestamp := now, action := action,
                       success := ok, service := "consent_agent" }] := by
  unfold log_audit; rw [h]; rfl

theorem log_audit_auditLog_sinkDown (s : AgentState) (now : Int) (uid action : String) (ok : Bool)
    (h : s.auditSinkFails = true) :
    (log_audit s now uid action ok).auditLog = s.auditLog := by
  unfold log_audit; rw [h]; rfl

theorem aget_append {α : Type} (l1 l2 : List (String × α)) (key : String) :
    aget (l1 ++ l2) key =
      match aget l2 key with
      | Option.some w => Option.some w
      | Option.none => aget l1 key := by
  induction l1 with
  | nil => cases h : aget l2 key <;> simp [aget, h]
  | cons p rest ih =>
    cases p with
    | mk k v =>
      simp only [List.cons_append, aget, List.append_eq]
      rw [ih]
      cases h : aget l2 key <;> cases h2 : aget rest key <;> simp [h, h2]

theorem aget_eq_none_of_hasKey_false {α : Type} (l : List (String × α)) (key : String)
    (h : hasKey l key = false) : aget l key = Option.none := by
  induction l with
  | nil => rfl
  | cons p rest ih =>
    cases p with
    | mk k v =>
      simp only [hasKey, List.any_cons, Bool.or_eq_false_iff] at h
      have hk : k ≠ key := by simpa using h.1
      have hr : aget rest key = Option.none := ih (by simpa [hasKey] using h.2)
      simp [aget, hr, hk]

theorem aget_append_singleton {α : Type} (l : List (String × α)) (uid : String) (d : α) :
    aget (l ++ [(uid, d)]) uid = Option.some d := by
  rw [aget_append]
  simp [aget]

theorem verify_fst_congr (s1 s2 : AgentState) (now : Int) (uid dtype : String)
    (hst : s1.store = s2.store) (hfl : s1.storeFails = s2.storeFails) :
    (verify_consent s1 now uid dtype).map (fun p => p.1) =
      (verify_consent s2 now uid dtype).map (fun p => p.1) := by
  unfold verify_consent
  rw [hst, hfl]
  cases hb : s2.storeFails with
  | true => rfl
  | false =>
    simp only [Bool.false_eq_true, if_false]
    cases h : aget s2.store uid with
    | none => rfl
    | some doc =>
      dsimp only
      by_cases hg : truthyGet doc "data_processing" = false
      · simp only [if_pos hg] <;> rfl
      · simp only [if_neg hg]
        by_cases hc : (hasKey doc (dtype ++ "_consent")
            && !(truthyGet doc (dtype ++ "_consent"))) = true
        · simp only [if_pos hc] <;> rfl
        · simp only [if_neg hc]
          cases he : aget doc "expiry_date" with
          | none => rfl
          | some v =>
            cases v with
            | time t =>
              by_cases ht : t < now
              · simp only [if_pos ht] <;> rfl
              · simp only [if_neg ht] <;> rfl
            | bool b => cases b <;> rfl
            | str s =>
              by_cases hs : truthy (Value.str s) = true
              · simp only [if_pos hs] <;> rfl
              · simp only [if_neg hs] <;> rfl
            | none => rfl

/-! ## Concrete states used as witnesses and counterexamples -/

/-- A consent document: global flag true, an `expiry_date` of 100, no
category-specific flags (the spec scenario `record (global:true, expires_at:
now+1d)`). -/
def wDoc : List (String × Value) :=
  [("data_processing", Value.bool true), ("expiry_date", Value.time 100)]

/-- A healthy agent holding `wDoc` for user `alice`. -/
def wState : AgentState :=
  { required_consents := ["data_processing"], default_expiry := 365,
    store := [("alice", wDoc)], auditLog := [], errorLog := [],
    storeFails := false, auditSinkFails := false }

/-- The same agent while the consent collection raises
`GoogleAPICallError` on access. -/
def wFailState : AgentState :=
  { wState with storeFails := true }

/-- An agent with an empty consent collection whose store access raises. -/
def wFailState2 : AgentState :=
  { required_consents := [], default_expiry := 30, store := [],
    auditLog := [], errorLog := [], storeFails := true, auditSinkFails := false }

/-- A healthy agent with no required consents and an empty store. -/
def regState : AgentState :=
  { required_consents := [], default_expiry := 365, store := [],
    auditLog := [], errorLog := [], storeFails := false, auditSinkFails := false }

/-! ## C1 -/

/-- C1: `verify_consent` applies its rules in the fixed order no-record,
global flag, category flag, expiry, and short-circuits on the first failing
rule: DENY (audit `No consent document found`) when no record exists;
otherwise DENY (`Global data processing consent missing`) when the global
`data_processing` flag is falsy, regardless of the category flag; otherwise
DENY (`Specific consent denied`) when the category flag is present and
falsy; otherwise DENY (`Consent expired`) when the record is expired;
otherwise ALLOW (`Valid consent`), in particular when the category has no
explicit flag it inherits the (truthy) global flag. -/
theorem verify_rule_order (s : AgentState) (now : Int) (uid dtype : String)
    (hsf : s.storeFails = false) :
    (aget s.store uid = Option.none →
      verify_consent s now uid dtype =
        Except.ok (false, log_audit s now uid "No consent document found" false)) ∧
    (∀ doc, aget s.store uid = Option.some doc →
      ((truthyGet doc "data_processing" = false →
        verify_consent s now uid dtype =
          Except.ok (false,
            log_audit s now uid "Global data processing consent missing" false)) ∧
       (truthyGet doc "data_processing" = true →
        hasKey doc (dtype ++ "_consent") = true →
        truthyGet doc (dtype ++ "_consent") = false →
        verify_consent s now uid dtype =
          Except.ok (false,
            log_audit s now uid ("Specific consent denied for " ++ dtype) false)) ∧
       (∀ t, truthyGet doc "data_processing" = true →
        (hasKey doc (dtype ++ "_consent") && !(truthyGet doc (dtype ++ "_consent"))) = false →
        aget doc "expiry_date" = Option.some (Value.time t) →
        t < now →
        verify_consent s now uid dtype =
          Except.ok (false, log_audit s now uid "Consent expired" false)) ∧
       (truthyGet doc "data_processing" = true →
        (hasKey doc (dtype ++ "_consent") && !(truthyGet doc (dtype ++ "_consent"))) = false →
        isExpired doc now = false →
        expiryWellTyped doc = true →
        verify_consent s now uid dtype =
          Except.ok (true, log_audit s now uid ("Valid consent for " ++ dtype) true)))) := by
  constructor
  · intro h
    simp [verify_consent, hsf, h]
  · intro doc hdoc
    refine ⟨?_, ?_, ?_, ?_⟩
    · intro hg
      simp [verify_consent, hsf, hdoc, hg]
    · intro hg hk hcat
      simp [verify_consent, hsf, hdoc, hg, hk, hcat]
    · intro t hg hc he ht
      simp [verify_consent, hsf, hdoc, hg, hc, he, ht]
    · intro hg hc hexp hwt
      cases he : aget doc "expiry_date" with
      | none => simp [verify_consent, hsf, hdoc, hg, hc, he]
      | some v =>
        cases v with
        | time t =>
          have ht : ¬ t < now := by simpa [isExpired, he] using hexp
          simp [verify_consent, hsf, hdoc, hg, hc, he, ht]
        | bool b =>
          have hb : b = false := by simpa [expiryWellTyped, he, truthy] using hwt
          simp [verify_consent, hsf, hdoc, hg, hc, he, hb, truthy]
        | str a =>
          have ha : a = "" := by simpa [expiryWellTyped, he, truthy] using hwt
          simp [verify_consent, hsf, hdoc, hg, hc, he, ha, truthy]
        | none =>
          simp [verify_consent, hsf, hdoc, hg, hc, he, truthy]

/-- C1 witness: the spec scenario — record with truthy global flag and
unexpired `expiry_date`, category `email` unset — evaluates to ALLOW with a
`Valid consent` audit entry. -/
theorem verify_rule_order_witness :
    wState.storeFails = false ∧
    verify_consent wState 5 "alice" "email" =
      Except.ok (true, log_audit wState 5 "alice" "Valid consent for email" true) := by
  refine ⟨rfl, ?_⟩
  have h := (verify_rule_order wState 5 "alice" "email" rfl).2 wDoc (by decide)
  exact h.2.2.2 (by decide) (by decide) (by decide) (by decide)

/-! ## C2 -/

/-- C2 counterexample: with the consent collection raising
`GoogleAPICallError`, `verify_consent` returns a plain `False` — the same
caller-visible shape as every policy DENY, with no distinct
`STORE_UNAVAILABLE` error — and emits no audit entry at all. -/
theorem verify_store_error_counterexample :
    (verify_consent wFailState 5 "alice" "email").map (fun p => p.1) = Except.ok false ∧
    (verify_consent wFailState 5 "alice" "email").map (fun p => p.2.auditLog) =
      Except.ok [] := by
  constructor <;> decide

/-- C2 (amended): when the consent-store lookup fails with an
infrastructure error, `verify_consent` catches it, writes one
`logging.error` line, and returns `False` — indistinguishable from a
denial — emitting no audit entry and leaving the store untouched. -/
theorem verify_store_error_behavior (s : AgentState) (now : Int) (uid dtype : String)
    (hsf : s.storeFails = true) :
    verify_consent s now uid dtype =
      Except.ok (false,
        { s with errorLog := s.errorLog ++ ["Consent verification failed"] }) ∧
    (verify_consent s now uid dtype).map (fun p => p.2.auditLog) =
      Except.ok s.auditLog := by
  constructor
  · simp [verify_consent, hsf]
  · simp [verify_consent, hsf, Except.map]

/-- C2 witness: the amended behavior at a concrete failing store. -/
theorem verify_store_error_behavior_witness :
    wFailState.storeFails = true ∧
    verify_consent wFailState 5 "alice" "email" =
      Except.ok (false,
        { wFailState with errorLog := ["Consent verification failed"] }) := by
  refine ⟨rfl, ?_⟩
  have h := (verify_store_error_behavior wFailState 5 "alice" "email" rfl).1
  simpa using h

/-! ## C3 -/

/-- C3 counterexample: `wDoc` has `expiry_date = 100`; at `now = 100`
(so `now >= expires_at` holds) `verify_consent` returns ALLOW, not
DENY/EXPIRED, because the code tests `expiry_date < now` strictly. -/
theorem verify_expiry_boundary_counterexample :
    (100 : Int) ≥ 100 ∧
    (verify_consent wState 100 "alice" "email").map (fun p => p.1) =
      Except.ok true := by
  exact ⟨le_refl 100, by decide⟩

/-- C3 (amended): for a record whose `expiry_date` is a datetime `t`, with
the global flag truthy and the category not explicitly denied,
`verify_consent` returns DENY (audit `Consent expired`) iff `now > t`
strictly; at the boundary `now = t` (and any `now <= t`) it returns
ALLOW. -/
theorem verify_expiry_strict (s : AgentState) (now : Int) (uid dtype : String)
    (doc : List (String × Value)) (t : Int)
    (hsf : s.storeFails = false)
    (hdoc : aget s.store uid = Option.some doc)
    (hg : truthyGet doc "data_processing" = true)
    (hc : (hasKey doc (dtype ++ "_consent") && !(truthyGet doc (dtype ++ "_consent"))) = false)
    (he : aget doc "expiry_date" = Option.some (Value.time t)) :
    (t < now →
      verify_consent s now uid dtype =
        Except.ok (false, log_audit s now uid "Consent expired" false)) ∧
    (now ≤ t →
      verify_consent s now uid dtype =
        Except.ok (true, log_audit s now uid ("Valid consent for " ++ dtype) true)) := by
  constructor
  · intro ht
    simp [verify_consent, hsf, hdoc, hg, hc, he, ht]
  · intro ht
    have ht2 : ¬ t < now := not_lt.mpr ht
    simp [verify_consent, hsf, hdoc, hg, hc, he, ht2]

/-- C3 witness: at the exact boundary `now = expires_at = 100` the record
evaluates to ALLOW, and one second past it (`now = 101`) to DENY. -/
theorem verify_expiry_strict_witness :
    ((100 : Int) ≤ 100 ∧
      verify_consent wState 100 "alice" "email" =
        Except.ok (true, log_audit wState 100 "alice" "Valid consent for email" true)) ∧
    ((100 : Int) < 101 ∧
      verify_consent wState 101 "alice" "email" =
        Except.ok (false, log_audit wState 101 "alice" "Consent expired" false)) := by
  constructor
  · exact ⟨le_refl 100,
      (verify_expiry_strict wState 100 "alice" "email" wDoc 100 rfl (by decide)
        (by decide) (by decide) (by decide)).2 (le_refl 100)⟩
  · exact ⟨by norm_num,
      (verify_expiry_strict wState 101 "alice" "email" wDoc 100 rfl (by decide)
        (by decide) (by decide) (by decide)).1 (by norm_num)⟩

/-! ## C4 -/

/-- The record found for `uid`, if any, has a well-typed `expiry_date` — a
decidable form of the typing assumption for one lookup. -/
def lookupWellTyped (s : AgentState) (uid : String) : Bool :=
  match aget s.store uid with
  | Option.some doc => expiryWellTyped doc
  | Option.none => true

theorem log_audit_length_ok (s : AgentState) (now : Int) (uid action : String) (ok : Bool)
    (h : s.auditSinkFails = false) :
    (log_audit s now uid action ok).auditLog.length = s.auditLog.length + 1 := by
  rw [log_audit_auditLog_ok s now uid action ok h]
  simp

/-- C4 counterexample: a `verify_consent` call whose store lookup fails
emits zero audit entries, not exactly one. -/
theorem verify_audit_zero_counterexample :
    (verify_consent wFailState2 7 "bob" "email").map (fun p => p.2.auditLog.length) =
      Except.ok 0 := by
  decide

/-- C4 (amended): a `verify_consent` call that completes the store lookup
(no infrastructure error), with the audit sink up and a well-typed
`expiry_date` in the record if one exists, emits exactly one audit entry;
a call whose store lookup fails emits none. -/
theorem verify_audit_count (s : AgentState) (now : Int) (uid dtype : String) :
    (s.storeFails = false → s.auditSinkFails = false →
      lookupWellTyped s uid = true →
      ∃ b s2, verify_consent s now uid dtype = Except.ok (b, s2) ∧
        s2.auditLog.length = s.auditLog.length + 1) ∧
    (s.storeFails = true →
      ∃ s2, verify_consent s now uid dtype = Except.ok (false, s2) ∧
        s2.auditLog = s.auditLog) := by
  constructor
  · intro hsf hsink hwt
    cases hdoc : aget s.store uid with
    | none =>
      exact ⟨false, _, by simp [verify_consent, hsf, hdoc],
        log_audit_length_ok s now uid "No consent document found" false hsink⟩
    | some doc =>
      by_cases hg : truthyGet doc "data_processing" = false
      · exact ⟨false, _, by simp [verify_consent, hsf, hdoc, hg],
          log_audit_length_ok s now uid "Global data processing consent missing" false hsink⟩
      · by_cases hc : (hasKey doc (dtype ++ "_consent")
            && !(truthyGet doc (dtype ++ "_consent"))) = true
        · exact ⟨false, _, by simp [verify_consent, hsf, hdoc, hg, hc],
            log_audit_length_ok s now uid ("Specific consent denied for " ++ dtype) false hsink⟩
        · have hwt2 : expiryWellTyped doc = true := by
            simpa [lookupWellTyped, hdoc] using hwt
          cases he : aget doc "expiry_date" with
          | none =>
            exact ⟨true, _, by simp [verify_consent, hsf, hdoc, hg, hc, he],
              log_audit_length_ok s now uid ("Valid consent for " ++ dtype) true hsink⟩
          | some v =>
            cases v with
            | time t =>
              by_cases ht : t < now
              · exact ⟨false, _, by simp [verify_consent, hsf, hdoc, hg, hc, he, ht],
                  log_audit_length_ok s now uid "Consent expired" false hsink⟩
              · exact ⟨true, _, by simp [verify_consent, hsf, hdoc, hg, hc, he, ht],
                  log_audit_length_ok s now uid ("Valid consent for " ++ dtype) true hsink⟩
            | bool b =>
              have hb : b = false := by
                simpa [expiryWellTyped, he, truthy] using hwt2
              exact ⟨true, _, by simp [verify_consent, hsf, hdoc, hg, hc, he, hb, truthy],
                log_audit_length_ok s now uid ("Valid consent for " ++ dtype) true hsink⟩
            | str a =>
              have ha : a = "" := by
                simpa [expiryWellTyped, he, truthy] using hwt2
              exact ⟨true, _, by simp [verify_consent, hsf, hdoc, hg, hc, he, ha, truthy],
                log_audit_length_ok s now uid ("Valid consent for " ++ dtype) true hsink⟩
            | none =>
              exact ⟨true, _, by simp [verify_consent, hsf, hdoc, hg, hc, he, truthy],
                log_audit_length_ok s now uid ("Valid consent for " ++ dtype) true hsink⟩
  · intro hsf
    exact ⟨{ s with errorLog := s.errorLog ++ ["Consent verification failed"] },
      by simp [verify_consent, hsf], rfl⟩

/-- C4 witness: exactly one audit entry at a healthy agent, zero at an
agent whose store lookup fails. -/
theorem verify_audit_count_witness :
    (wState.storeFails = false ∧
      ∃ b s2, verify_consent wState 5 "alice" "email" = Except.ok (b, s2) ∧
        s2.auditLog.length = wState.auditLog.length + 1) ∧
    (wFailState2.storeFails = true ∧
      ∃ s2, verify_consent wFailState2 7 "bob" "email" = Except.ok (false, s2) ∧
        s2.auditLog = wFailState2.auditLog) := by
  constructor
  · exact ⟨rfl, (verify_audit_count wState 5 "alice" "email").1 rfl rfl (by decide)⟩
  · exact ⟨rfl, (verify_audit_count wFailState2 7 "bob" "email").2 rfl⟩

/-! ## C5 -/

theorem register_snd_storeFails (s : AgentState) (now : Int) (uid : String)
    (consents : List (String × Value)) :
    ((register_consent s now uid consents).2).storeFails = s.storeFails := by
  cases hf : s.required_consents.find? (fun c => !(hasKey consents c)) with
  | some c => simp [register_consent, hf, log_audit_storeFails]
  | none =>
    cases hsf : s.storeFails with
    | true => simp [register_consent, hf, hsf, log_audit_storeFails]
    | false => simp [register_consent, hf, hsf, log_audit_storeFails]

theorem register_true_store (s : AgentState) (now : Int) (uid : String)
    (consents : List (String × Value))
    (h : (register_consent s now uid consents).1 = true) :
    ((register_consent s now uid consents).2).store =
      s.store ++ [(uid, consent_doc s now uid consents)] := by
  cases hf : s.required_consents.find? (fun c => !(hasKey consents c)) with
  | some c => exfalso; simp [register_consent, hf] at h
  | none =>
    cases hsf : s.storeFails with
    | true => exfalso; simp [register_consent, hf, hsf] at h
    | false => simp [register_consent, hf, hsf, log_audit_store]

/-- C5: when the consents mapping misses a category of the configured
required-consents list, `register_consent` returns `False` and persists
nothing — the consent collection is unchanged, so a subsequent
`verify_consent` for a user with no prior record still denies with
`No consent document found`. -/
theorem register_missing_required (s : AgentState) (now : Int) (uid : String)
    (consents : List (String × Value)) (c : String) (dtype : String)
    (hc : c ∈ s.required_consents) (hmiss : hasKey consents c = false) :
    (register_consent s now uid consents).1 = false ∧
    ((register_consent s now uid consents).2).store = s.store ∧
    (s.storeFails = false → aget s.store uid = Option.none →
      (verify_consent ((register_consent s now uid consents).2) now uid dtype).map
          (fun p => p.1) = Except.ok false) := by
  cases hf : s.required_consents.find? (fun c => !(hasKey consents c)) with
  | none =>
    exfalso
    rw [List.find?_eq_none] at hf
    have := hf c hc
    simp [hmiss] at this
  | some c0 =>
    refine ⟨?_, ?_, ?_⟩
    · simp [register_consent, hf]
    · simp [register_consent, hf, log_audit_store]
    · intro hsf hnone
      have hst : ((register_consent s now uid consents).2).store = s.store := by
        simp [register_consent, hf, log_audit_store]
      have hfl : ((register_consent s now uid consents).2).storeFails = s.storeFails :=
        register_snd_storeFails s now uid consents
      rw [verify_fst_congr ((register_consent s now uid consents).2) s now uid dtype hst hfl]
      simp [verify_consent, hsf, hnone, Except.map]

/-- C5 witness: registering `(marketing := false)` against required set
containing `data_processing` fails, persists nothing, and the user still
has no record. -/
theorem register_missing_required_witness :
    ("data_processing" ∈ wState.required_consents ∧
      hasKey [("marketing", Value.bool false)] "data_processing" = false) ∧
    (register_consent wState 5 "newuser" [("marketing", Value.bool false)]).1 = false ∧
    ((register_consent wState 5 "newuser" [("marketing", Value.bool false)]).2).store =
      wState.store ∧
    (verify_consent ((register_consent wState 5 "newuser"
        [("marketing", Value.bool false)]).2) 5 "newuser" "email").map
      (fun p => p.1) = Except.ok false := by
  have h := register_missing_required wState 5 "newuser"
    [("marketing", Value.bool false)] "data_processing" "email" (by decide) (by decide)
  exact ⟨⟨by decide, by decide⟩, h.1, h.2.1, h.2.2 rfl (by decide)⟩

/-! ## C6 -/

/-- C6: a second successful registration for the same user replaces the
stored record wholesale rather than merging it: any category key present in
the first consents payload but absent from the second (and distinct from
the computed fields) is absent from the stored document, so that category
has no explicit flag and falls back to the global flag at evaluation. -/
theorem register_replaces_wholesale (s : AgentState) (now1 now2 : Int) (uid key : String)
    (c1 c2 : List (String × Value))
    (h1 : (register_consent s now1 uid c1).1 = true)
    (h2 : (register_consent ((register_consent s now1 uid c1).2) now2 uid c2).1 = true)
    (hk1 : hasKey c1 key = true)
    (hk2 : hasKey c2 key = false)
    (hu : key ≠ "user_id") (htt : key ≠ "timestamp") (hee : key ≠ "expiry_date") :
    ∃ doc,
      aget ((register_consent ((register_consent s now1 uid c1).2) now2 uid c2).2).store uid
        = Option.some doc ∧
      aget doc key = Option.none := by
  refine ⟨consent_doc ((register_consent s now1 uid c1).2) now2 uid c2, ?_, ?_⟩
  · rw [register_true_store _ _ _ _ h2]
    exact aget_append_singleton _ _ _
  · unfold consent_doc
    rw [aget_append, aget_eq_none_of_hasKey_false c2 key hk2]
    simp [aget, Ne.symm hu, Ne.symm htt, Ne.symm hee]

/-- C6 witness: registering `(a_consent := true)` then `(b_consent := true)`
leaves the stored record without an `a_consent` key. -/
theorem register_replaces_wholesale_witness :
    (register_consent regState 10 "erin" [("a_consent", Value.bool true)]).1 = true ∧
    (register_consent ((register_consent regState 10 "erin"
        [("a_consent", Value.bool true)]).2) 20 "erin"
        [("b_consent", Value.bool true)]).1 = true ∧
    ∃ doc,
      aget ((register_consent ((register_consent regState 10 "erin"
          [("a_consent", Value.bool true)]).2) 20 "erin"
          [("b_consent", Value.bool true)]).2).store "erin" = Option.some doc ∧
      aget doc "a_consent" = Option.none := by
  refine ⟨by decide, by decide, ?_⟩
  exact register_replaces_wholesale regState 10 20 "erin" "a_consent"
    [("a_consent", Value.bool true)] [("b_consent", Value.bool true)]
    (by decide) (by decide) (by decide) (by decide)
    (by decide) (by decide) (by decide)

/-! ## C7 -/

/-- C7 counterexample: a successful registration whose consents payload
carries an `expiry_date` key persists the caller's value — here expiry 0
against registration timestamp 100, violating both the
`expires_at = created_at + default_validity` formula (0 is not 100 + 365)
and the `expires_at >= created_at` invariant. -/
theorem register_expiry_invariant_counterexample :
    (register_consent regState 100 "carol" [("expiry_date", Value.time 0)]).1 = true ∧
    (aget ((register_consent regState 100 "carol"
        [("expiry_date", Value.time 0)]).2).store "carol").map
      (fun d => (aget d "expiry_date", aget d "timestamp"))
      = Option.some (Option.some (Value.time 0), Option.some (Value.time 100)) ∧
    (0 : Int) < 100 ∧ Value.time 0 ≠ Value.time (100 + regState.default_expiry) := by
  refine ⟨by decide, by decide, by norm_num, by decide⟩

/-- C7 (amended): a successful registration whose consents payload does not
override the computed fields persists `timestamp = now` and
`expiry_date = now + default_expiry`, so with a nonnegative configured
validity the record's expiry is never earlier than its creation timestamp;
there is no requested-validity parameter, and a caller-supplied
`expiry_date` key in consents replaces the computed value (see C10). -/
theorem register_default_expiry (s : AgentState) (now : Int) (uid : String)
    (consents : List (String × Value))
    (hts : hasKey consents "timestamp" = false)
    (hex : hasKey consents "expiry_date" = false)
    (h : (register_consent s now uid consents).1 = true) :
    ∃ doc, aget ((register_consent s now uid consents).2).store uid = Option.some doc ∧
      aget doc "timestamp" = Option.some (Value.time now) ∧
      aget doc "expiry_date" = Option.some (Value.time (now + s.default_expiry)) ∧
      (0 ≤ s.default_expiry → now ≤ now + s.default_expiry) := by
  refine ⟨consent_doc s now uid consents, ?_, ?_, ?_, ?_⟩
  · rw [register_true_store _ _ _ _ h]
    exact aget_append_singleton _ _ _
  · unfold consent_doc
    rw [aget_append, aget_eq_none_of_hasKey_false consents "timestamp" hts]
    rfl
  · unfold consent_doc
    rw [aget_append, aget_eq_none_of_hasKey_false consents "expiry_date" hex]
    rfl
  · intro hd
    linarith

/-- C7 witness: a registration that does not override the computed fields
persists `timestamp = 50` and `expiry_date = 50 + 365`. -/
theorem register_default_expiry_witness :
    (register_consent regState 50 "frank" [("data_processing", Value.bool true)]).1 = true ∧
    ∃ doc, aget ((register_consent regState 50 "frank"
        [("data_processing", Value.bool true)]).2).store "frank" = Option.some doc ∧
      aget doc "timestamp" = Option.some (Value.time 50) ∧
      aget doc "expiry_date" = Option.some (Value.time (50 + regState.default_expiry)) ∧
      (0 ≤ regState.default_expiry → (50 : Int) ≤ 50 + regState.default_expiry) := by
  refine ⟨by decide, ?_⟩
  exact register_default_expiry regState 50 "frank" [("data_processing", Value.bool true)]
    (by decide) (by decide) (by decide)

/-! ## C8 -/

/-- C8: the audit writer never propagates a failure into the operation it
audits: `log_audit` never touches the consent collection (no rollback), and
both the decision returned by `verify_consent` and the result and persisted
store of `register_consent` are identical whether the audit-sink write
fails or succeeds — a sink failure is captured as an operational log line
only. -/
theorem audit_failure_isolated (s : AgentState) (now now2 : Int)
    (uid action dtype uid2 : String) (ok : Bool) (consents : List (String × Value)) :
    (log_audit s now uid action ok).store = s.store ∧
    (verify_consent { s with auditSinkFails := true } now uid dtype).map (fun p => p.1) =
      (verify_consent { s with auditSinkFails := false } now uid dtype).map (fun p => p.1) ∧
    (register_consent { s with auditSinkFails := true } now2 uid2 consents).1 =
      (register_consent { s with auditSinkFails := false } now2 uid2 consents).1 ∧
    ((register_consent { s with auditSinkFails := true } now2 uid2 consents).2).store =
      ((register_consent { s with auditSinkFails := false } now2 uid2 consents).2).store := by
  refine ⟨log_audit_store s now uid action ok, ?_, ?_, ?_⟩
  · exact verify_fst_congr _ _ now uid dtype rfl rfl
  · cases hf : s.required_consents.find? (fun c => !(hasKey consents c)) with
    | some c => simp [register_consent, hf]
    | none =>
      cases hsf : s.storeFails with
      | true => simp [register_consent, hf, hsf]
      | false => simp [register_consent, hf, hsf]
  · cases hf : s.required_consents.find? (fun c => !(hasKey consents c)) with
    | some c => simp [register_consent, hf, log_audit_store]
    | none =>
      cases hsf : s.storeFails with
      | true => simp [register_consent, hf, hsf, log_audit_store]
      | false => simp [register_consent, hf, hsf, log_audit_store, consent_doc]

/-! ## C9 -/

/-- C9: `handle_data_violation` always issues the halt-processing request
for the user to the Processing Controller, and issues the redaction request
for `(user, category)` to the Redaction Service iff the category is in the
redactable list `['email', 'phone_number']`. -/
theorem violation_requests (uid dtype : String) :
    Request.blockProcessing uid ∈ handle_data_violation uid dtype ∧
    (Request.redactData uid dtype ∈ handle_data_violation uid dtype ↔
      dtype ∈ redactable_data_types) := by
  constructor
  · simp [handle_data_violation]
  · by_cases h : dtype ∈ redactable_data_types <;>
      simp [handle_data_violation, h]

/-! ## C10 -/

/-- C10: because `register_consent` spreads the caller's consents after the
computed fields, a successful registration persists the caller-supplied
value for any of the keys `user_id`, `timestamp`, `expiry_date` present in
consents in place of the computed one; in particular a registration can
persist a record whose `expiry_date` is strictly earlier than its
`timestamp`. -/
theorem register_spread_overrides (s : AgentState) (now : Int) (uid key : String)
    (consents : List (String × Value)) (v : Value)
    (hk : key = "user_id" ∨ key = "timestamp" ∨ key = "expiry_date")
    (hv : aget consents key = Option.some v)
    (h : (register_consent s now uid consents).1 = true) :
    (∃ doc, aget ((register_consent s now uid consents).2).store uid = Option.some doc ∧
      aget doc key = Option.some v) ∧
    ∃ (s2 : AgentState) (now2 : Int) (uid2 : String) (cns2 : List (String × Value))
      (doc2 : List (String × Value)) (t1 t2 : Int),
      (register_consent s2 now2 uid2 cns2).1 = true ∧
      aget ((register_consent s2 now2 uid2 cns2).2).store uid2 = Option.some doc2 ∧
      aget doc2 "expiry_date" = Option.some (Value.time t1) ∧
      aget doc2 "timestamp" = Option.some (Value.time t2) ∧
      t1 < t2 := by
  constructor
  · refine ⟨consent_doc s now uid consents, ?_, ?_⟩
    · rw [register_true_store _ _ _ _ h]
      exact aget_append_singleton _ _ _
    · unfold consent_doc
      rw [aget_append, hv]
  · refine ⟨regState, 100, "carol", [("expiry_date", Value.time 0)],
      consent_doc regState 100 "carol" [("expiry_date", Value.time 0)],
      0, 100, by decide, by decide, by decide, by decide, by norm_num⟩

/-- C10 witness: a caller-supplied `timestamp` key survives into the
persisted record in place of the computed registration time. -/
theorem register_spread_overrides_witness :
    aget [("timestamp", Value.time 7)] "timestamp" = Option.some (Value.time 7) ∧
    (register_consent regState 50 "dave" [("timestamp", Value.time 7)]).1 = true ∧
    ∃ doc, aget ((register_consent regState 50 "dave"
        [("timestamp", Value.time 7)]).2).store "dave" = Option.some doc ∧
      aget doc "timestamp" = Option.some (Value.time 7) := by
  refine ⟨by decide, by decide, ?_⟩
  exact (register_spread_overrides regState 50 "dave" "timestamp"
    [("timestamp", Value.time 7)] (Value.time 7)
    (Or.inr (Or.inl rfl)) (by decide) (by decide)).1
